import Mathlib

/-!
Shallow embedding of `src/script.js` (Meal Prep Assistant, AI-powered chat UI).

The embedding models the program state (`state` plus the DOM pieces the
handlers read and write), the AI client `callAI`, the local mock responder
`getMockAIResponse`, the submission handler `handleSubmit`, and the speech
adapter functions `startListening` / `stopListening`.  The network is
modelled by a `FetchOutcome` parameter: the outcome the `fetch` call in
`callAI` would produce.  JavaScript string operations used by the code
(`trim`, `toLowerCase`, `includes`) are modelled over `List Char`.
-/

set_option maxRecDepth 100000

namespace MealApp

/-- A conversation turn, `{role: 'user'|'assistant', content: string}`
(role `"system"` appears only in the request payload). -/
structure Message where
  role : String
  content : String
deriving DecidableEq

/-- The `CONFIG` object of `script.js` (the fields the logic reads). -/
structure Config where
  apiKey : String
  apiEndpoint : String
  model : String
  useMockAI : Bool
deriving DecidableEq

/-- A request body sent to the chat-completion endpoint (the fields built
from program data; `temperature` and `max_tokens` are constants). -/
structure ApiRequest where
  model : String
  messages : List Message
deriving DecidableEq

/-- Does the pattern match at the head of the text? -/
def matchesAt : List Char → List Char → Bool
  | [], _ => true
  | _ :: _, [] => false
  | p :: ps, c :: cs => p = c && matchesAt ps cs

/-- Does the pattern occur anywhere in the text? -/
def occursIn : List Char → List Char → Bool
  | pat, [] => matchesAt pat []
  | pat, c :: cs => matchesAt pat (c :: cs) || occursIn pat cs

/-- Model of JavaScript `String.prototype.includes`. -/
def jsIncludes (s pat : String) : Bool := occursIn pat.data s.data

/-- Model of JavaScript `String.prototype.toLowerCase` on one character
(ASCII range; the keywords the program matches are ASCII). -/
def toLowerChar (c : Char) : Char :=
  if 'A' ≤ c && c ≤ 'Z' then Char.ofNat (c.toNat + 32) else c

/-- Model of JavaScript `String.prototype.toLowerCase`. -/
def jsToLower (s : String) : String := ⟨s.data.map toLowerChar⟩

/-- JavaScript whitespace characters relevant to `trim` (ASCII range). -/
def isJsSpace (c : Char) : Bool :=
  c = ' ' || c = '\t' || c = '\n' || c = '\r' || c = '\x0b' || c = '\x0c'

/-- Model of JavaScript `String.prototype.trim`. -/
def jsTrim (s : String) : String :=
  ⟨((s.data.dropWhile isJsSpace).reverse.dropWhile isJsSpace).reverse⟩

/-- The canned template returned for a meal-keyword plus kid-keyword match
(`script.js` line 315). -/
def mockKidTemplate : String :=
  "Got it — you're planning meals for your family including a child.\n\nI just need a bit more information:\n• How many adults are in your household?\n• Which meals should I plan? (breakfast, lunch, dinner, snacks)\n• How many days should the meal prep cover?"

/-- The canned template returned for a meal-keyword match without a kid
keyword (`script.js` line 317). -/
def mockMealTemplate : String :=
  "Got it — I'm here to help with your meal prep planning.\n\nI just need a bit more information:\n• How many people are you cooking for? How many adults and how many children?\n• Which meals should I plan? (breakfast, lunch, dinner, snacks)\n• How many days should the meal prep cover?"

/-- The default canned template (`script.js` line 320). -/
def mockDefaultTemplate : String :=
  "I understand. Let me help you create a meal prep plan. Could you tell me more about your household and meal preferences?"

/-- `getMockAIResponse(userMessage)` of `script.js` lines 307-321. -/
def getMockAIResponse (userMessage : String) : String :=
  let lowerMessage := jsToLower userMessage
  if jsIncludes lowerMessage "meal" || jsIncludes lowerMessage "prep" || jsIncludes lowerMessage "plan" then
    if jsIncludes lowerMessage "kid" || jsIncludes lowerMessage "child" then
      mockKidTemplate
    else
      mockMealTemplate
  else
    mockDefaultTemplate

/-- The fixed instruction preamble sent as the system message
(`SYSTEM_PROMPT`, `script.js` lines 39-108). -/
def SYSTEM_PROMPT : String :=
  "You are a conversational meal prep assistant.\n\nYou are responsible for:\n- Understanding natural language (including plurals, synonyms, and implicit meaning)\n- Extracting and remembering user-provided information across turns\n- Inferring reasonable defaults when information is missing\n- Deciding when enough information is available\n- Generating a complete weekly meal plan when ready\n\n------------------------------------\nMEMORY & STATE RULES\n------------------------------------\n\nAll user messages are cumulative.\nIf the user provides information, you MUST remember it and NEVER ask for it again.\n\nYou must internally track:\n- Household composition (adults, children, ages)\n- Meals to plan (lunch, dinner, etc.)\n- Duration (default to 7 days if \"this week\" is mentioned)\n- Nutrition goals (default to balanced if unspecified)\n- Allergies or intolerances (default to none if unspecified)\n- Preferences and dislikes\n\n------------------------------------\nINFERENCE RULES\n------------------------------------\n\nYou MUST correctly interpret:\n- Singular and plural forms (e.g. lunch/lunches, dinner/dinners)\n- \"a kid\" or \"my kid\" as one child\n- \"this week\" as 7 days\n- Silence about allergies as \"no allergies\"\n\nDo NOT ask questions if a reasonable assumption can be made.\n\n------------------------------------\nDECISION RULE: ASK vs GENERATE\n------------------------------------\n\nIf you have enough information to create a reasonable meal plan:\n❌ STOP asking questions\n✅ GENERATE a Version 1 weekly meal plan immediately\n\nA first usable plan is ALWAYS better than waiting for perfect data.\n\n------------------------------------\nRESPONSE STRUCTURE\n------------------------------------\n\nWhen responding:\n\n1️⃣ Briefly acknowledge what you understood  \n2️⃣ If needed, ask ONLY truly missing questions  \n3️⃣ If ready, generate a full weekly meal plan (lunch + dinner, Monday–Sunday)  \n4️⃣ After the plan, optionally suggest refinements\n\n------------------------------------\nANTI-FRUSTRATION RULE\n------------------------------------\n\nAssume the user does NOT want to repeat themselves.\nNever re-ask answered questions.\nNever ignore earlier information.\n\n------------------------------------\nGOAL\n------------------------------------\n\nHelp the user get a concrete, family-friendly weekly meal prep plan as efficiently as possible."

/-- The system message placed first in every request payload. -/
def systemMessage : Message := ⟨"system", SYSTEM_PROMPT⟩

/-- The outcome the `fetch` call inside `callAI` would produce, were the
network path taken: success with the completion text, a non-success HTTP
status (with the optional upstream `error.message`), a network error, or a
success status with a malformed body (missing `choices[0].message.content`). -/
inductive FetchOutcome where
  | success (content : String)
  | httpError (errMsg : Option String)
  | netError
  | malformed
deriving DecidableEq

/-- The message carried by the exception each failure outcome raises inside
the `try` block (`throw new Error(error.error?.message || 'API request
failed')` for a non-success status; engine-supplied text otherwise). -/
def FetchOutcome.raisedMsg : FetchOutcome → String
  | .success _ => ""
  | .httpError (some m) => m
  | .httpError none => "API request failed"
  | .netError => "Failed to fetch"
  | .malformed => "Cannot read properties of undefined"

/-- Is this outcome one of the failure cases caught by `callAI`'s `catch`? -/
def FetchOutcome.failed : FetchOutcome → Bool
  | .success _ => false
  | _ => true

/-- What a call to `callAI` leaves behind: its return value or raised error,
the conversation history, the busy flag, the status line, and the network
requests it performed. -/
structure CallAIResult where
  result : Except String String
  history : List Message
  isLoading : Bool
  statusMsg : String
  requests : List ApiRequest

/-- `callAI(userMessage)` of `script.js` lines 236-302.

The user turn is pushed first; the `messages` payload is built as the system
prompt followed by the whole history; if mock mode is forced or no key is
configured the mock response is returned (no network, no assistant push, busy
flag and status untouched); otherwise the fetch outcome decides: on success
the completion is pushed as an assistant turn and returned; on failure the
`catch` returns the mock response when `useMockAI` is false and rethrows
otherwise; the `finally` clears the busy flag and the status line. -/
def callAI (cfg : Config) (hist : List Message) (isLoading0 : Bool)
    (status0 : String) (userMessage : String) (outcome : FetchOutcome) :
    CallAIResult :=
  let hist1 := hist ++ [⟨"user", userMessage⟩]
  let messages := systemMessage :: hist1
  if cfg.useMockAI = true ∨ cfg.apiKey = "" then
    { result := .ok (getMockAIResponse userMessage), history := hist1,
      isLoading := isLoading0, statusMsg := status0, requests := [] }
  else
    match outcome with
    | .success content =>
        { result := .ok content,
          history := hist1 ++ [⟨"assistant", content⟩],
          isLoading := false, statusMsg := "",
          requests := [⟨cfg.model, messages⟩] }
    | o =>
        if cfg.useMockAI = false then
          { result := .ok (getMockAIResponse userMessage), history := hist1,
            isLoading := false, statusMsg := "",
            requests := [⟨cfg.model, messages⟩] }
        else
          { result := .error o.raisedMsg, history := hist1,
            isLoading := false, statusMsg := "",
            requests := [⟨cfg.model, messages⟩] }

/-- The program state: the `state` singleton of `script.js` (recognition
modelled as the flag "a recognition object was constructed") together with
the DOM the handlers read and write (`textInput.value`, the status line, the
rendered message list as `(text, isUser)` pairs).  `caughtError` is a ghost
flag set only by the `catch` branch of `handleSubmit`, recording that the
branch ran. -/
structure AppState where
  isListening : Bool
  recognition : Bool
  conversationHistory : List Message
  isLoading : Bool
  textInput : String
  statusMsg : String
  displayed : List (String × Bool)
  caughtError : Bool
deriving DecidableEq

/-- The state on page load. -/
def initialState : AppState :=
  { isListening := false, recognition := false, conversationHistory := [],
    isLoading := false, textInput := "", statusMsg := "", displayed := [],
    caughtError := false }

/-- `handleSubmit()` of `script.js` lines 326-353: trim the input; reject
empty input with a validation status; reject while busy; otherwise display
the user message, clear the input and status, run `callAI`, and display its
result (the `catch` branch shows an error status and an apology message). -/
def handleSubmit (cfg : Config) (st : AppState) (outcome : FetchOutcome) :
    AppState × List ApiRequest :=
  let userMessage := jsTrim st.textInput
  if userMessage = "" then
    ({ st with statusMsg := "Please enter a message or use the microphone." }, [])
  else if st.isLoading = true then
    (st, [])
  else
    let st1 := { st with displayed := st.displayed ++ [(userMessage, true)],
                         textInput := "", statusMsg := "" }
    let r := callAI cfg st1.conversationHistory st1.isLoading st1.statusMsg
               userMessage outcome
    match r.result with
    | .ok aiResponse =>
        ({ st1 with conversationHistory := r.history, isLoading := r.isLoading,
                    statusMsg := r.statusMsg,
                    displayed := st1.displayed ++ [(aiResponse, false)] },
         r.requests)
    | .error e =>
        ({ st1 with conversationHistory := r.history, isLoading := r.isLoading,
                    statusMsg := "Error: " ++ e ++ ". Please check your API configuration.",
                    displayed := st1.displayed ++
                      [("I apologize, but I encountered an error. Please try again or check your API configuration.", false)],
                    caughtError := true },
         r.requests)

/-- One user-initiated submission: type `input` into the text field, then
run `handleSubmit`. -/
def submitOne (cfg : Config) (st : AppState) (input : String)
    (outcome : FetchOutcome) : AppState × List ApiRequest :=
  handleSubmit cfg { st with textInput := input } outcome

/-- A sequence of submissions, each an input text plus the outcome its
network call (if any) would produce; collects all requests performed. -/
def runSubmits (cfg : Config) :
    AppState → List (String × FetchOutcome) → AppState × List ApiRequest
  | st, [] => (st, [])
  | st, (t, o) :: rest =>
      let p := submitOne cfg st t o
      let q := runSubmits cfg p.1 rest
      (q.1, p.2 ++ q.2)

/-- `startListening()` of `script.js` lines 147-162: without a recognition
object only a status message; otherwise `recognition.start()` (which may
raise, caught with a status message) and the listening flag is set. -/
def startListening (startRaises : Bool) (st : AppState) : AppState :=
  if st.recognition = false then
    { st with statusMsg := "Speech recognition not available in this browser." }
  else if startRaises = true then
    { st with statusMsg := "Could not start listening. Please try again." }
  else
    { st with isListening := true, statusMsg := "Listening... Speak now!" }

set_option linter.unusedVariables false in
/-- `stopListening()` of `script.js` lines 167-177: only when a recognition
object exists and the adapter is listening, call `recognition.stop()` inside
a `try` whose `catch` ignores the error (`stopRaises` says whether the stop
call raised; the result does not depend on it), and clear the listening
flag; otherwise do nothing. -/
def stopListening (stopRaises : Bool) (st : AppState) : AppState :=
  if st.recognition = true ∧ st.isListening = true then
    { st with isListening := false }
  else
    st

/-- The externally triggered events of the program: page-load speech
initialization (supported or not), a mic-button click (start may raise), the
recognition `onerror` / `onend` / `onresult` callbacks, editing the text
field, focusing it, and a submission. -/
inductive Event where
  | initSpeech (supported : Bool)
  | micClick (raises : Bool)
  | recError (stopRaises : Bool)
  | recEnd (stopRaises : Bool)
  | recResult (transcript : String)
  | typeText (s : String)
  | focusInput (stopRaises : Bool)
  | submit (outcome : FetchOutcome)

/-- The event handlers of `script.js`, as one step function. -/
def stepEvent (cfg : Config) (st : AppState) : Event → AppState
  | .initSpeech supported =>
      if supported = true then { st with recognition := true } else st
  | .micClick raises =>
      if st.isListening = true then stopListening raises st
      else startListening raises st
  | .recError stopRaises =>
      stopListening stopRaises
        { st with statusMsg := "Error: speech recognition error. Please try again." }
  | .recEnd stopRaises => stopListening stopRaises st
  | .recResult transcript =>
      { st with textInput := transcript,
                statusMsg := "Speech recognized! Click send or speak again." }
  | .typeText s => { st with textInput := s }
  | .focusInput stopRaises =>
      if st.isListening = true then stopListening stopRaises st else st
  | .submit outcome => (handleSubmit cfg st outcome).1

/-- The states the program can reach from page load. -/
inductive Reachable (cfg : Config) : AppState → Prop
  | init : Reachable cfg initialState
  | next (e : Event) {st : AppState} (h : Reachable cfg st) :
      Reachable cfg (stepEvent cfg st e)

/-- The `CONFIG` literal of `script.js` with no stored key: mock responses
due to a missing credential. -/
def mockCfg : Config :=
  { apiKey := "", apiEndpoint := "https://api.openai.com/v1/chat/completions",
    model := "gpt-4o", useMockAI := false }

/-- The `CONFIG` literal with a stored key: the network path is live. -/
def apiCfg : Config :=
  { apiKey := "sk-test-key",
    apiEndpoint := "https://api.openai.com/v1/chat/completions",
    model := "gpt-4o", useMockAI := false }

/-- The transcript a sequence of submissions produces when every one is
answered over the live network path: one user turn (the trimmed input)
followed by one assistant turn (the completion) per submission, in order. -/
def successHistory : List (String × String) → List Message
  | [] => []
  | p :: rest => ⟨"user", jsTrim p.1⟩ :: ⟨"assistant", p.2⟩ :: successHistory rest

/-! ## Helper lemmas -/

/-- The mock responder returns one of the three canned templates. -/
theorem getMockAIResponse_cases (s : String) :
    getMockAIResponse s = mockKidTemplate ∨ getMockAIResponse s = mockMealTemplate ∨
      getMockAIResponse s = mockDefaultTemplate := by
  simp only [getMockAIResponse]
  split
  · split
    · exact Or.inl rfl
    · exact Or.inr (Or.inl rfl)
  · exact Or.inr (Or.inr rfl)

/-- The mock responder never returns the empty string. -/
theorem getMockAIResponse_ne_empty (s : String) : getMockAIResponse s ≠ "" := by
  rcases getMockAIResponse_cases s with h | h | h <;> rw [h] <;> decide

/-- `callAI` on the mock path (mock mode forced or no key): returns the mock
response, appends only the user turn, performs no request, leaves the busy
flag and status line untouched. -/
theorem callAI_mock (cfg : Config) (hist : List Message) (l : Bool)
    (s0 m : String) (o : FetchOutcome) (h : cfg.useMockAI = true ∨ cfg.apiKey = "") :
    callAI cfg hist l s0 m o =
      { result := .ok (getMockAIResponse m), history := hist ++ [⟨"user", m⟩],
        isLoading := l, statusMsg := s0, requests := [] } := by
  simp only [callAI]
  rw [if_pos h]

/-- `callAI` on the live network path with a successful outcome. -/
theorem callAI_success (cfg : Config) (hist : List Message) (l : Bool)
    (s0 m c : String) (hmock : cfg.useMockAI = false) (hkey : cfg.apiKey ≠ "") :
    callAI cfg hist l s0 m (.success c) =
      { result := .ok c,
        history := (hist ++ [⟨"user", m⟩]) ++ [⟨"assistant", c⟩],
        isLoading := false, statusMsg := "",
        requests := [⟨cfg.model, systemMessage :: (hist ++ [⟨"user", m⟩])⟩] } := by
  simp only [callAI]
  rw [if_neg]
  rintro (h | h)
  · rw [hmock] at h; exact Bool.false_ne_true h
  · exact hkey h

/-- `callAI` on the live network path with a failed outcome: the `catch`
falls back to the mock responder, appends only the user turn, and the
`finally` clears the busy flag. -/
theorem callAI_failure (cfg : Config) (hist : List Message) (l : Bool)
    (s0 m : String) (o : FetchOutcome) (hmock : cfg.useMockAI = false)
    (hkey : cfg.apiKey ≠ "") (hfail : o.failed = true) :
    callAI cfg hist l s0 m o =
      { result := .ok (getMockAIResponse m), history := hist ++ [⟨"user", m⟩],
        isLoading := false, statusMsg := "",
        requests := [⟨cfg.model, systemMessage :: (hist ++ [⟨"user", m⟩])⟩] } := by
  have hcond : ¬ (cfg.useMockAI = true ∨ cfg.apiKey = "") := by
    rintro (h | h)
    · rw [hmock] at h; exact Bool.false_ne_true h
    · exact hkey h
  cases o with
  | success c => simp [FetchOutcome.failed] at hfail
  | httpError e => simp only [callAI]; rw [if_neg hcond, if_pos hmock]
  | netError => simp only [callAI]; rw [if_neg hcond, if_pos hmock]
  | malformed => simp only [callAI]; rw [if_neg hcond, if_pos hmock]

/-- `handleSubmit` on empty (post-trim) input: only the status line changes. -/
theorem handleSubmit_validation (cfg : Config) (st : AppState) (o : FetchOutcome)
    (h : jsTrim st.textInput = "") :
    handleSubmit cfg st o =
      ({ st with statusMsg := "Please enter a message or use the microphone." }, []) := by
  simp only [handleSubmit]
  rw [if_pos h]

/-- `handleSubmit` while busy (non-empty input): nothing happens at all. -/
theorem handleSubmit_busy (cfg : Config) (st : AppState) (o : FetchOutcome)
    (hne : jsTrim st.textInput ≠ "") (hl : st.isLoading = true) :
    handleSubmit cfg st o = (st, []) := by
  simp only [handleSubmit]
  rw [if_neg hne, if_pos hl]

/-- `handleSubmit` from idle on non-empty input, when `callAI` returns
normally with `s`: the state picks up `callAI`'s history, busy flag and
status, the input is cleared, and the user message and response are
displayed. -/
theorem handleSubmit_ok (cfg : Config) (st : AppState) (o : FetchOutcome) (s : String)
    (hne : jsTrim st.textInput ≠ "") (hl : st.isLoading = false)
    (hres : (callAI cfg st.conversationHistory false "" (jsTrim st.textInput) o).result
              = .ok s) :
    handleSubmit cfg st o =
      ({ st with
          conversationHistory :=
            (callAI cfg st.conversationHistory false "" (jsTrim st.textInput) o).history,
          isLoading :=
            (callAI cfg st.conversationHistory false "" (jsTrim st.textInput) o).isLoading,
          statusMsg :=
            (callAI cfg st.conversationHistory false "" (jsTrim st.textInput) o).statusMsg,
          textInput := "",
          displayed := (st.displayed ++ [(jsTrim st.textInput, true)]) ++ [(s, false)] },
       (callAI cfg st.conversationHistory false "" (jsTrim st.textInput) o).requests) := by
  simp only [handleSubmit]
  rw [if_neg hne, if_neg (by rw [hl]; exact Bool.false_ne_true)]
  simp only [hl]
  rw [hres]

/-- `callAI` always returns normally: on the mock path by construction, on
the live path because the `catch` falls back whenever `useMockAI` is false,
and reaching the `try` at all requires `useMockAI` false. -/
theorem callAI_result_ok (cfg : Config) (hist : List Message) (l : Bool)
    (s0 m : String) (o : FetchOutcome) :
    ∃ s : String, (callAI cfg hist l s0 m o).result = .ok s := by
  by_cases h : cfg.useMockAI = true ∨ cfg.apiKey = ""
  · exact ⟨getMockAIResponse m, by rw [callAI_mock _ _ _ _ _ _ h]⟩
  · push_neg at h
    obtain ⟨h1, h2⟩ := h
    have hmock : cfg.useMockAI = false := by
      cases hb : cfg.useMockAI
      · rfl
      · exact absurd hb h1
    cases o with
    | success c => exact ⟨c, by rw [callAI_success _ _ _ _ _ _ hmock h2]⟩
    | httpError e =>
        exact ⟨getMockAIResponse m,
          by rw [callAI_failure cfg hist l s0 m (.httpError e) hmock h2 rfl]⟩
    | netError =>
        exact ⟨getMockAIResponse m,
          by rw [callAI_failure cfg hist l s0 m .netError hmock h2 rfl]⟩
    | malformed =>
        exact ⟨getMockAIResponse m,
          by rw [callAI_failure cfg hist l s0 m .malformed hmock h2 rfl]⟩

/-- Whenever the response comes from the mock responder — mock mode forced,
no key, or the network-failure fallback — only the user turn is appended. -/
theorem callAI_fallback_history (cfg : Config) (hist : List Message) (l : Bool)
    (s0 m : String) (o : FetchOutcome)
    (h : cfg.useMockAI = true ∨ cfg.apiKey = "" ∨ o.failed = true) :
    (callAI cfg hist l s0 m o).history = hist ++ [⟨"user", m⟩] := by
  by_cases hm : cfg.useMockAI = true ∨ cfg.apiKey = ""
  · rw [callAI_mock _ _ _ _ _ _ hm]
  · push_neg at hm
    obtain ⟨h1, h2⟩ := hm
    have hmock : cfg.useMockAI = false := by
      cases hb : cfg.useMockAI
      · rfl
      · exact absurd hb h1
    have hfail : o.failed = true := by
      rcases h with h | h | h
      · exact absurd h h1
      · exact absurd h h2
      · exact h
    rw [callAI_failure _ _ _ _ _ _ hmock h2 hfail]

/-- `handleSubmit` never touches the speech-adapter fields. -/
theorem handleSubmit_keeps_speech (cfg : Config) (st : AppState) (o : FetchOutcome) :
    (handleSubmit cfg st o).1.isListening = st.isListening
    ∧ (handleSubmit cfg st o).1.recognition = st.recognition := by
  by_cases h1 : jsTrim st.textInput = ""
  · rw [handleSubmit_validation cfg st o h1]; exact ⟨rfl, rfl⟩
  · by_cases h2 : st.isLoading = true
    · rw [handleSubmit_busy cfg st o h1 h2]; exact ⟨rfl, rfl⟩
    · have hl : st.isLoading = false := by
        cases hb : st.isLoading
        · rfl
        · exact absurd hb h2
      obtain ⟨s, hs⟩ :=
        callAI_result_ok cfg st.conversationHistory false "" (jsTrim st.textInput) o
      rw [handleSubmit_ok cfg st o s h1 hl hs]
      exact ⟨rfl, rfl⟩

/-- `stopListening` keeps the recognition object, and leaves the adapter
listening only if it already was. -/
theorem stopListening_fields (b : Bool) (st : AppState) :
    (stopListening b st).recognition = st.recognition
    ∧ ((stopListening b st).isListening = true → st.isListening = true) := by
  unfold stopListening
  split
  · exact ⟨rfl, fun h => Bool.noConfusion h⟩
  · exact ⟨rfl, id⟩

/-- Invariant of every reachable state: the adapter listens only when a
recognition object was constructed (`startListening` returns early without
one, and nothing destroys the object). -/
theorem reachable_invariant (cfg : Config) {st : AppState} (h : Reachable cfg st) :
    st.isListening = true → st.recognition = true := by
  induction h with
  | init => exact fun hL => Bool.noConfusion hL
  | next e h ih =>
    rename_i s
    cases e with
    | initSpeech supported =>
        simp only [stepEvent]
        by_cases hs : supported = true
        · rw [if_pos hs]; intro _; rfl
        · rw [if_neg hs]; exact ih
    | micClick raises =>
        simp only [stepEvent]
        by_cases hL : s.isListening = true
        · rw [if_pos hL]
          intro _
          rw [(stopListening_fields raises s).1]
          exact ih hL
        · rw [if_neg hL]
          simp only [startListening]
          by_cases hr : s.recognition = false
          · rw [if_pos hr]
            intro hX
            exact absurd hX hL
          · rw [if_neg hr]
            by_cases hraise : raises = true
            · rw [if_pos hraise]
              intro hX
              exact absurd hX hL
            · rw [if_neg hraise]
              intro _
              show s.recognition = true
              cases hb : s.recognition
              · exact absurd hb hr
              · rfl
    | recError b =>
        simp only [stepEvent]
        intro hX
        rw [(stopListening_fields b
              { s with statusMsg := "Error: speech recognition error. Please try again." }).1]
        exact ih ((stopListening_fields b
              { s with statusMsg := "Error: speech recognition error. Please try again." }).2 hX)
    | recEnd b =>
        simp only [stepEvent]
        intro hX
        rw [(stopListening_fields b s).1]
        exact ih ((stopListening_fields b s).2 hX)
    | recResult t => simp only [stepEvent]; exact ih
    | typeText t => simp only [stepEvent]; exact ih
    | focusInput b =>
        simp only [stepEvent]
        by_cases hL : s.isListening = true
        · rw [if_pos hL]
          intro _
          rw [(stopListening_fields b s).1]
          exact ih hL
        · rw [if_neg hL]
          exact ih
    | submit o =>
        simp only [stepEvent]
        intro hX
        rw [(handleSubmit_keeps_speech cfg s o).2]
        exact ih (by rw [← (handleSubmit_keeps_speech cfg s o).1]; exact hX)

/-- One mock-mode submission: exactly one user turn is appended and the
controller stays idle. -/
theorem submitOne_mock (cfg : Config) (st : AppState) (t : String) (o : FetchOutcome)
    (hm : cfg.useMockAI = true ∨ cfg.apiKey = "")
    (hload : st.isLoading = false) (ht : jsTrim t ≠ "") :
    (submitOne cfg st t o).1.conversationHistory
        = st.conversationHistory ++ [⟨"user", jsTrim t⟩]
    ∧ (submitOne cfg st t o).1.isLoading = false := by
  have hok := handleSubmit_ok cfg { st with textInput := t } o
      (getMockAIResponse (jsTrim t)) ht hload
      (by rw [callAI_mock _ _ _ _ _ _ hm])
  unfold submitOne
  rw [hok, callAI_mock _ _ _ _ _ _ hm]
  exact ⟨rfl, rfl⟩

/-- One live-path submission with a successful outcome: the user turn and
the assistant turn are appended, and the controller returns to idle. -/
theorem submitOne_success (cfg : Config) (st : AppState) (t c : String)
    (hmock : cfg.useMockAI = false) (hkey : cfg.apiKey ≠ "")
    (hload : st.isLoading = false) (ht : jsTrim t ≠ "") :
    (submitOne cfg st t (.success c)).1.conversationHistory
        = st.conversationHistory ++ [⟨"user", jsTrim t⟩, ⟨"assistant", c⟩]
    ∧ (submitOne cfg st t (.success c)).1.isLoading = false := by
  have hok := handleSubmit_ok cfg { st with textInput := t } (.success c) c ht hload
      (by rw [callAI_success _ _ _ _ _ _ hmock hkey])
  unfold submitOne
  rw [hok, callAI_success _ _ _ _ _ _ hmock hkey]
  refine ⟨?_, rfl⟩
  show (st.conversationHistory ++ [⟨"user", jsTrim t⟩]) ++ [⟨"assistant", c⟩] = _
  simp [List.append_assoc]

/-- On the live path, any submission sends exactly one request whose
`messages` are the system prompt followed by the whole transcript including
the new user turn. -/
theorem submitOne_requests (cfg : Config) (st : AppState) (t : String)
    (o : FetchOutcome) (hmock : cfg.useMockAI = false) (hkey : cfg.apiKey ≠ "")
    (hload : st.isLoading = false) (ht : jsTrim t ≠ "") :
    (submitOne cfg st t o).2
        = [⟨cfg.model, systemMessage :: (st.conversationHistory ++ [⟨"user", jsTrim t⟩])⟩] := by
  unfold submitOne
  cases o with
  | success c =>
      have hok := handleSubmit_ok cfg { st with textInput := t } (.success c) c ht hload
          (by rw [callAI_success _ _ _ _ _ _ hmock hkey])
      rw [hok, callAI_success _ _ _ _ _ _ hmock hkey]
  | httpError e =>
      have hok := handleSubmit_ok cfg { st with textInput := t } (.httpError e)
          (getMockAIResponse (jsTrim t)) ht hload
          (by rw [callAI_failure cfg st.conversationHistory false "" (jsTrim t)
                    (.httpError e) hmock hkey rfl])
      rw [hok, callAI_failure cfg st.conversationHistory false "" (jsTrim t)
            (.httpError e) hmock hkey rfl]
  | netError =>
      have hok := handleSubmit_ok cfg { st with textInput := t } .netError
          (getMockAIResponse (jsTrim t)) ht hload
          (by rw [callAI_failure cfg st.conversationHistory false "" (jsTrim t)
                    .netError hmock hkey rfl])
      rw [hok, callAI_failure cfg st.conversationHistory false "" (jsTrim t)
            .netError hmock hkey rfl]
  | malformed =>
      have hok := handleSubmit_ok cfg { st with textInput := t } .malformed
          (getMockAIResponse (jsTrim t)) ht hload
          (by rw [callAI_failure cfg st.conversationHistory false "" (jsTrim t)
                    .malformed hmock hkey rfl])
      rw [hok, callAI_failure cfg st.conversationHistory false "" (jsTrim t)
            .malformed hmock hkey rfl]

/-- Any number of mock-mode submissions from an idle state: the transcript
grows by exactly the user turns, and the controller stays idle. -/
theorem runSubmits_mock (cfg : Config) (hm : cfg.useMockAI = true ∨ cfg.apiKey = "")
    (subs : List (String × FetchOutcome)) (st : AppState)
    (hload : st.isLoading = false) (hne : ∀ p ∈ subs, jsTrim p.1 ≠ "") :
    (runSubmits cfg st subs).1.conversationHistory
        = st.conversationHistory ++ subs.map (fun p => ⟨"user", jsTrim p.1⟩)
    ∧ (runSubmits cfg st subs).1.isLoading = false := by
  induction subs generalizing st with
  | nil => exact ⟨(List.append_nil _).symm, hload⟩
  | cons p rest ih =>
    obtain ⟨t, o⟩ := p
    have hstep := submitOne_mock cfg st t o hm hload (hne (t, o) (List.mem_cons_self _ _))
    have hrest := ih (submitOne cfg st t o).1 hstep.2
        (fun q hq => hne q (List.mem_cons_of_mem _ hq))
    refine ⟨?_, hrest.2⟩
    show (runSubmits cfg (submitOne cfg st t o).1 rest).1.conversationHistory = _
    rw [hrest.1, hstep.1]
    simp [List.append_assoc]

/-- Any number of live-path submissions, all answered successfully, from an
idle state: the transcript grows by one user and one assistant turn per
submission, in order. -/
theorem runSubmits_success (cfg : Config) (hmock : cfg.useMockAI = false)
    (hkey : cfg.apiKey ≠ "") (subs : List (String × String)) (st : AppState)
    (hload : st.isLoading = false) (hne : ∀ p ∈ subs, jsTrim p.1 ≠ "") :
    (runSubmits cfg st (subs.map fun p => (p.1, FetchOutcome.success p.2))).1.conversationHistory
        = st.conversationHistory ++ successHistory subs
    ∧ (runSubmits cfg st (subs.map fun p => (p.1, FetchOutcome.success p.2))).1.isLoading = false := by
  induction subs generalizing st with
  | nil => exact ⟨(List.append_nil _).symm, hload⟩
  | cons p rest ih =>
    obtain ⟨t, c⟩ := p
    have hstep := submitOne_success cfg st t c hmock hkey hload
        (hne (t, c) (List.mem_cons_self _ _))
    have hrest := ih (submitOne cfg st t (.success c)).1 hstep.2
        (fun q hq => hne q (List.mem_cons_of_mem _ hq))
    refine ⟨?_, hrest.2⟩
    show (runSubmits cfg (submitOne cfg st t (.success c)).1 _).1.conversationHistory = _
    rw [hrest.1, hstep.1]
    simp [successHistory, List.append_assoc]

/-- `successHistory` has two turns per submission. -/
theorem successHistory_length (subs : List (String × String)) :
    (successHistory subs).length = 2 * subs.length := by
  induction subs with
  | nil => rfl
  | cons p rest ih =>
      simp only [successHistory, List.length_cons, ih]
      omega

/-! ## Claim theorems -/

/-- C1 (counterexample): one accepted submission with no credential
configured (mock path): the fallback output is produced and displayed as the
assistant bubble, but it is not appended to `conversationHistory` — the
transcript holds one turn, not two. -/
theorem C1_counterexample :
    (runSubmits mockCfg initialState
        [("I want meal prep for my kid", FetchOutcome.netError)]).1.displayed
      = [("I want meal prep for my kid", true), (mockKidTemplate, false)]
    ∧ (runSubmits mockCfg initialState
        [("I want meal prep for my kid", FetchOutcome.netError)]).1.conversationHistory
      = [⟨"user", "I want meal prep for my kid"⟩]
    ∧ (runSubmits mockCfg initialState
        [("I want meal prep for my kid", FetchOutcome.netError)]).1.conversationHistory.length
      ≠ 2 * 1 := by
  refine ⟨?_, ?_, ?_⟩ <;> decide

/-- C1 (amended): after n accepted submissions all answered over the live
network path, the transcript holds exactly 2n turns, one user turn followed
by one assistant turn per submission, in chronological order; but when the
response comes from the local fallback synthesizer (mock mode, missing
credential, or network-failure fallback) only the user turn is appended —
the fallback output is NOT appended as an assistant turn. -/
theorem C1_transcript_pairs (cfg : Config)
    (hmock : cfg.useMockAI = false) (hkey : cfg.apiKey ≠ "")
    (subs : List (String × String)) (hne : ∀ p ∈ subs, jsTrim p.1 ≠ "") :
    ((runSubmits cfg initialState
        (subs.map fun p => (p.1, FetchOutcome.success p.2))).1.conversationHistory
          = successHistory subs
      ∧ (runSubmits cfg initialState
          (subs.map fun p => (p.1, FetchOutcome.success p.2))).1.conversationHistory.length
          = 2 * subs.length)
    ∧ ∀ (cfg' : Config) (hist : List Message) (l : Bool) (s0 m : String)
        (o : FetchOutcome), cfg'.useMockAI = true ∨ cfg'.apiKey = "" ∨ o.failed = true →
          (callAI cfg' hist l s0 m o).history = hist ++ [⟨"user", m⟩] := by
  have hrun := runSubmits_success cfg hmock hkey subs initialState rfl hne
  have hhist : (runSubmits cfg initialState
      (subs.map fun p => (p.1, FetchOutcome.success p.2))).1.conversationHistory
        = successHistory subs := by
    rw [hrun.1]
    exact List.nil_append _
  refine ⟨⟨hhist, ?_⟩, fun cfg' hist l s0 m o h => callAI_fallback_history cfg' hist l s0 m o h⟩
  rw [hhist]
  exact successHistory_length subs

/-- C1 witness: two successful submissions leave four alternating turns. -/
theorem C1_witness :
    (runSubmits apiCfg initialState
        [("plan meals", FetchOutcome.success "Sure!"),
         ("two kids", FetchOutcome.success "Got it")]).1.conversationHistory
      = successHistory [("plan meals", "Sure!"), ("two kids", "Got it")]
    ∧ (runSubmits apiCfg initialState
        [("plan meals", FetchOutcome.success "Sure!"),
         ("two kids", FetchOutcome.success "Got it")]).1.conversationHistory.length
      = 2 * 2 := by
  have h := C1_transcript_pairs apiCfg rfl (by decide)
      [("plan meals", "Sure!"), ("two kids", "Got it")] (by decide)
  exact ⟨h.1.1, h.1.2⟩

/-- C2: on the live path every submission sends one request whose `messages`
array is the fixed system prompt followed by the whole accepted transcript
plus the new user turn — no truncation, reordering or summarization — and in
particular the second submission (after a successful first) sends exactly
`[system, turn1_user, turn1_assistant, turn2_user]`. -/
theorem C2_request_full_transcript (cfg : Config) (st : AppState)
    (o : FetchOutcome) (t : String)
    (hmock : cfg.useMockAI = false) (hkey : cfg.apiKey ≠ "")
    (hload : st.isLoading = false) (ht : jsTrim t ≠ "") :
    (submitOne cfg st t o).2
        = [⟨cfg.model, systemMessage :: (st.conversationHistory ++ [⟨"user", jsTrim t⟩])⟩]
    ∧ ∀ (t1 c1 t2 : String) (o2 : FetchOutcome), jsTrim t1 ≠ "" → jsTrim t2 ≠ "" →
        (submitOne cfg (submitOne cfg initialState t1 (FetchOutcome.success c1)).1 t2 o2).2
          = [⟨cfg.model, [systemMessage, ⟨"user", jsTrim t1⟩, ⟨"assistant", c1⟩,
                          ⟨"user", jsTrim t2⟩]⟩] := by
  refine ⟨submitOne_requests cfg st t o hmock hkey hload ht, ?_⟩
  intro t1 c1 t2 o2 h1 h2
  have hfst := submitOne_success cfg initialState t1 c1 hmock hkey rfl h1
  rw [submitOne_requests cfg _ t2 o2 hmock hkey hfst.2 h2, hfst.1]
  rfl

/-- C2 witness: the second request after a successful first submission. -/
theorem C2_witness :
    (submitOne apiCfg
        (submitOne apiCfg initialState "I need a meal plan"
          (FetchOutcome.success "How many people?")).1
        "Two adults, one kid" FetchOutcome.netError).2
      = [⟨apiCfg.model, [systemMessage, ⟨"user", "I need a meal plan"⟩,
                         ⟨"assistant", "How many people?"⟩,
                         ⟨"user", "Two adults, one kid"⟩]⟩] :=
  (C2_request_full_transcript apiCfg initialState FetchOutcome.netError "x"
      rfl (by decide) rfl (by decide)).2
    "I need a meal plan" "How many people?" "Two adults, one kid"
    FetchOutcome.netError (by decide) (by decide)

/-- C3: a submission attempted while busy (`state.isLoading` true) is
rejected: no request, no transcript change, no displayed message, the input
is not consumed, the flag stays set, and with non-empty input the state is
untouched entirely. -/
theorem C3_busy_rejected (cfg : Config) (st : AppState) (o : FetchOutcome)
    (hbusy : st.isLoading = true) :
    (handleSubmit cfg st o).1.conversationHistory = st.conversationHistory
    ∧ (handleSubmit cfg st o).2 = []
    ∧ (handleSubmit cfg st o).1.displayed = st.displayed
    ∧ (handleSubmit cfg st o).1.textInput = st.textInput
    ∧ (handleSubmit cfg st o).1.isLoading = true
    ∧ (jsTrim st.textInput ≠ "" → (handleSubmit cfg st o).1 = st) := by
  by_cases h : jsTrim st.textInput = ""
  · rw [handleSubmit_validation cfg st o h]
    exact ⟨rfl, rfl, rfl, rfl, hbusy, fun hne => absurd h hne⟩
  · rw [handleSubmit_busy cfg st o h hbusy]
    exact ⟨rfl, rfl, rfl, rfl, hbusy, fun _ => rfl⟩

/-- C3 witness: a concrete busy state rejects a submission unchanged. -/
theorem C3_witness :
    (handleSubmit mockCfg { initialState with isLoading := true, textInput := "hello" }
        FetchOutcome.netError).1
      = { initialState with isLoading := true, textInput := "hello" } :=
  (C3_busy_rejected mockCfg { initialState with isLoading := true, textInput := "hello" }
      FetchOutcome.netError rfl).2.2.2.2.2 (by decide)

/-- C4: submitting an input that is empty or all whitespace changes nothing
but the status line (set to the validation message): no transcript mutation,
no request, and the busy flag — hence the Idle state — is untouched. -/
theorem C4_validation_only_status (cfg : Config) (st : AppState) (o : FetchOutcome)
    (hws : ∀ c ∈ st.textInput.data, isJsSpace c = true) :
    (handleSubmit cfg st o).1
        = { st with statusMsg := "Please enter a message or use the microphone." }
    ∧ (handleSubmit cfg st o).2 = []
    ∧ (handleSubmit cfg st o).1.conversationHistory = st.conversationHistory
    ∧ (handleSubmit cfg st o).1.isLoading = st.isLoading := by
  have h : jsTrim st.textInput = "" := by
    unfold jsTrim
    rw [List.dropWhile_eq_nil_iff.mpr hws]
    rfl
  rw [handleSubmit_validation cfg st o h]
  exact ⟨rfl, rfl, rfl, rfl⟩

/-- C4 witness: whitespace-only input leaves everything but the status. -/
theorem C4_witness :
    (handleSubmit mockCfg { initialState with textInput := "  \t " }
        FetchOutcome.netError).1
      = { initialState with
          textInput := "  \t "
          statusMsg := "Please enter a message or use the microphone." } :=
  (C4_validation_only_status mockCfg { initialState with textInput := "  \t " }
      FetchOutcome.netError (by decide)).1

/-- C5: with a configured credential and mock mode not forced, a failing
network call (network error, non-success status, malformed body) still makes
`callAI` return the non-empty local fallback output instead of raising, and
the busy flag is false once the call settles. -/
theorem C5_failure_returns_fallback (cfg : Config) (hist : List Message)
    (l : Bool) (s0 m : String) (o : FetchOutcome)
    (hkey : cfg.apiKey ≠ "") (hmock : cfg.useMockAI = false) (hfail : o.failed = true) :
    (callAI cfg hist l s0 m o).result = .ok (getMockAIResponse m)
    ∧ getMockAIResponse m ≠ ""
    ∧ (callAI cfg hist l s0 m o).isLoading = false := by
  rw [callAI_failure cfg hist l s0 m o hmock hkey hfail]
  exact ⟨rfl, getMockAIResponse_ne_empty m, rfl⟩

/-- C5 witness: a concrete network failure settles with the fallback. -/
theorem C5_witness :
    (callAI apiCfg [] false "" "hi" FetchOutcome.netError).result
        = .ok (getMockAIResponse "hi")
    ∧ getMockAIResponse "hi" ≠ ""
    ∧ (callAI apiCfg [] false "" "hi" FetchOutcome.netError).isLoading = false :=
  C5_failure_returns_fallback apiCfg [] false "" "hi" FetchOutcome.netError
    (by decide) rfl rfl

/-- C6: with no credential configured, `callAI "I want meal prep for my
kid"` performs no network request and returns the non-empty kid template,
which contains the household-composition question. -/
theorem C6_no_key_household_question (cfg : Config) (hist : List Message)
    (l : Bool) (s0 : String) (o : FetchOutcome) (hkey : cfg.apiKey = "") :
    (callAI cfg hist l s0 "I want meal prep for my kid" o).result
        = .ok (getMockAIResponse "I want meal prep for my kid")
    ∧ (callAI cfg hist l s0 "I want meal prep for my kid" o).requests = []
    ∧ getMockAIResponse "I want meal prep for my kid" ≠ ""
    ∧ jsIncludes (getMockAIResponse "I want meal prep for my kid")
        "How many adults are in your household?" = true := by
  rw [callAI_mock cfg hist l s0 _ o (Or.inr hkey)]
  refine ⟨rfl, rfl, getMockAIResponse_ne_empty _, ?_⟩
  decide

/-- C6 witness: the missing-credential configuration at a concrete call. -/
theorem C6_witness :
    (callAI mockCfg [] false "" "I want meal prep for my kid" FetchOutcome.netError).result
        = .ok (getMockAIResponse "I want meal prep for my kid")
    ∧ (callAI mockCfg [] false "" "I want meal prep for my kid" FetchOutcome.netError).requests
        = []
    ∧ getMockAIResponse "I want meal prep for my kid" ≠ ""
    ∧ jsIncludes (getMockAIResponse "I want meal prep for my kid")
        "How many adults are in your household?" = true :=
  C6_no_key_household_question mockCfg [] false "" FetchOutcome.netError rfl

/-- C7: the mock responder is pure and deterministic, returns exactly one of
the three canned templates, is never empty, and depends only on the
lowercased input: inputs with the same lowercasing get the same response. -/
theorem C7_mock_pure (s : String) :
    (getMockAIResponse s = mockKidTemplate ∨ getMockAIResponse s = mockMealTemplate
       ∨ getMockAIResponse s = mockDefaultTemplate)
    ∧ getMockAIResponse s ≠ ""
    ∧ ∀ t : String, jsToLower s = jsToLower t →
        getMockAIResponse s = getMockAIResponse t := by
  refine ⟨getMockAIResponse_cases s, getMockAIResponse_ne_empty s, fun t h => ?_⟩
  simp only [getMockAIResponse]
  rw [h]

/-- C7 witness: case-insensitivity at a concrete pair of inputs. -/
theorem C7_witness : getMockAIResponse "MEAL PREP" = getMockAIResponse "meal prep" :=
  (C7_mock_pure "MEAL PREP").2.2 "meal prep" (by decide)

/-- C8: from any reachable state, `stopListening` leaves the adapter
inactive; an error raised by the underlying stop call is swallowed (the
result does not depend on whether it raised); and when already inactive the
call is a no-op. -/
theorem C8_stop_forces_inactive (cfg : Config) (st : AppState) (b b' : Bool)
    (h : Reachable cfg st) :
    (stopListening b st).isListening = false
    ∧ stopListening b st = stopListening b' st
    ∧ (st.isListening = false → stopListening b st = st) := by
  refine ⟨?_, rfl, ?_⟩
  · by_cases hL : st.isListening = true
    · unfold stopListening
      rw [if_pos ⟨reachable_invariant cfg h hL, hL⟩]
    · have hL0 : st.isListening = false := by
        cases hb : st.isListening
        · rfl
        · exact absurd hb hL
      unfold stopListening
      rw [if_neg]
      · exact hL0
      · rintro ⟨-, hcontr⟩
        exact hL hcontr
  · intro hL0
    unfold stopListening
    rw [if_neg]
    rintro ⟨-, hcontr⟩
    rw [hL0] at hcontr
    exact Bool.noConfusion hcontr

/-- C8 witness: a reachable listening state is forced inactive even when the
underlying stop call raises. -/
theorem C8_witness :
    (stepEvent mockCfg (stepEvent mockCfg initialState (Event.initSpeech true))
        (Event.micClick false)).isListening = true
    ∧ (stopListening true
        (stepEvent mockCfg (stepEvent mockCfg initialState (Event.initSpeech true))
          (Event.micClick false))).isListening = false :=
  ⟨by decide,
   (C8_stop_forces_inactive mockCfg _ true false
      (Reachable.next (Event.micClick false)
        (Reachable.next (Event.initSpeech true) Reachable.init))).1⟩

/-- C9: `callAI` always returns normally — the rethrow needs `useMockAI`
true, but then the mock path already returned before the `try` — so the
`catch` branch of `handleSubmit` (error status plus apologetic assistant
message) is dead code: its ghost flag never changes. -/
theorem C9_throw_unreachable :
    (∀ (cfg : Config) (hist : List Message) (l : Bool) (s0 m : String)
        (o : FetchOutcome), ∃ s : String, (callAI cfg hist l s0 m o).result = .ok s)
    ∧ (∀ (cfg : Config) (st : AppState) (o : FetchOutcome),
        (handleSubmit cfg st o).1.caughtError = st.caughtError) := by
  refine ⟨callAI_result_ok, fun cfg st o => ?_⟩
  by_cases h1 : jsTrim st.textInput = ""
  · rw [handleSubmit_validation cfg st o h1]
  · by_cases h2 : st.isLoading = true
    · rw [handleSubmit_busy cfg st o h1 h2]
    · have hl : st.isLoading = false := by
        cases hb : st.isLoading
        · rfl
        · exact absurd hb h2
      obtain ⟨s, hs⟩ :=
        callAI_result_ok cfg st.conversationHistory false "" (jsTrim st.textInput) o
      rw [handleSubmit_ok cfg st o s h1 hl hs]

/-- C10: a response produced by the mock path — mock mode forced, missing
credential, or the network-failure fallback — is never appended to
`conversationHistory`; in pure mock mode the history after n accepted
submissions is exactly the n user turns (all with role "user"). -/
theorem C10_mock_history_users_only (cfg : Config) (hist : List Message)
    (l : Bool) (s0 m : String) (o : FetchOutcome)
    (hfb : cfg.useMockAI = true ∨ cfg.apiKey = "" ∨ o.failed = true) :
    (callAI cfg hist l s0 m o).history = hist ++ [⟨"user", m⟩]
    ∧ ∀ (cfg' : Config), cfg'.useMockAI = true ∨ cfg'.apiKey = "" →
        ∀ (subs : List (String × FetchOutcome)), (∀ p ∈ subs, jsTrim p.1 ≠ "") →
          (runSubmits cfg' initialState subs).1.conversationHistory
              = subs.map (fun p => ⟨"user", jsTrim p.1⟩)
          ∧ ∀ msg ∈ (runSubmits cfg' initialState subs).1.conversationHistory,
              msg.role = "user" := by
  refine ⟨callAI_fallback_history cfg hist l s0 m o hfb, ?_⟩
  intro cfg' hm subs hne
  have hrun := runSubmits_mock cfg' hm subs initialState rfl hne
  have hhist : (runSubmits cfg' initialState subs).1.conversationHistory
      = subs.map (fun p => ⟨"user", jsTrim p.1⟩) := by
    rw [hrun.1]
    exact List.nil_append _
  refine ⟨hhist, ?_⟩
  intro msg hmsg
  rw [hhist] at hmsg
  obtain ⟨p, -, rfl⟩ := List.mem_map.mp hmsg
  rfl

/-- C10 witness: two mock-mode submissions leave two user-only turns. -/
theorem C10_witness :
    (callAI mockCfg [] false "" "hello" FetchOutcome.netError).history
        = [] ++ [⟨"user", "hello"⟩]
    ∧ (runSubmits mockCfg initialState
        [("hi meal", FetchOutcome.netError), ("two kids", FetchOutcome.netError)]).1.conversationHistory
        = [⟨"user", "hi meal"⟩, ⟨"user", "two kids"⟩] :=
  ⟨(C10_mock_history_users_only mockCfg [] false "" "hello" FetchOutcome.netError
      (Or.inr (Or.inl rfl))).1,
   ((C10_mock_history_users_only mockCfg [] false "" "hello" FetchOutcome.netError
      (Or.inr (Or.inl rfl))).2 mockCfg (Or.inr rfl)
      [("hi meal", FetchOutcome.netError), ("two kids", FetchOutcome.netError)]
      (by decide)).1⟩

end MealApp
